import Mathlib

/-!
Shallow embedding of the bucket-lifecycle manager (package awss3: bucket.go
and the S3Bucket implementation file) of the s3-broker repository, together
with theorems checking the specification's claims about it.

The remote AWS S3 client is modelled as a structure of response functions
(one per API call the code issues); each top-level operation is translated
from the Go source, returning its Go result together with the list of remote
calls it issued, in order.  The Go pagination loops in clearObjects and
clearVersions have no a-priori termination bound, so they are embedded with
a fuel parameter; a result of none means the fuel ran out before the loop
exited (the loop would keep running).
-/

namespace AwsS3

deriving instance DecidableEq for Except

/-- BucketDetails from bucket.go.  Go's nil Tags map is modelled as the empty
association list.  The Policy field is referenced by Create
(bucketDetails.Policy) and is part of the data model (spec section 3); the
interface file in src declares the other four fields. -/
structure BucketDetails where
  BucketName : String
  ARN : String
  Region : String
  Tags : List (String × String)
  Policy : String
deriving Repr, DecidableEq

/-- An s3.ObjectIdentifier: Key, and an optional VersionId (nil pointer when
the identifier is built from a plain object listing). -/
structure ObjectIdentifier where
  key : String
  versionId : Option String
deriving Repr, DecidableEq

/-- One entry of a version listing (s3.ObjectVersion): the code reads its Key
and VersionId fields. -/
structure ObjectVersion where
  key : String
  versionId : String
deriving Repr, DecidableEq

/-- s3.GetBucketLocationInput: the code sets only Bucket. -/
structure GetBucketLocationInput where
  bucket : String
deriving Repr, DecidableEq

/-- s3.GetBucketLocationOutput.LocationConstraint is a string pointer; none
models a nil pointer. -/
structure GetBucketLocationOutput where
  locationConstraint : Option String
deriving Repr, DecidableEq

/-- s3.CreateBucketInput: buildCreateBucketInput sets only Bucket. -/
structure CreateBucketInput where
  bucket : String
deriving Repr, DecidableEq

/-- s3.CreateBucketOutput: the code reads only Location (a string pointer). -/
structure CreateBucketOutput where
  location : Option String
deriving Repr, DecidableEq

/-- s3.PutBucketPolicyInput: the code sets Bucket and Policy. -/
structure PutBucketPolicyInput where
  bucket : String
  policy : String
deriving Repr, DecidableEq

/-- s3.ListObjectsInput: the code sets Bucket, MaxKeys (1000) and Marker. -/
structure ListObjectsInput where
  bucket : String
  maxKeys : Int
  marker : Option String
deriving Repr, DecidableEq

/-- s3.ListObjectsOutput as read by clearObjects: Contents (modelled by the
list of object keys) and the Marker field.  Per the AWS API the output Marker
field echoes the Marker of the request; the continuation cursor would be
NextMarker / the last key, which the code never reads. -/
structure ListObjectsOutput where
  contents : List String
  marker : Option String
deriving Repr, DecidableEq

/-- s3.DeleteObjectsInput: Bucket and Delete.Objects. -/
structure DeleteObjectsInput where
  bucket : String
  objects : List ObjectIdentifier
deriving Repr, DecidableEq

/-- s3.ListObjectVersionsInput: the code sets Bucket, KeyMarker and
VersionIdMarker. -/
structure ListVersionsInput where
  bucket : String
  keyMarker : Option String
  versionIdMarker : Option String
deriving Repr, DecidableEq

/-- s3.ListObjectVersionsOutput as relevant to clearVersions: Versions, the
continuation cursors NextKeyMarker and NextVersionIdMarker, and the
VersionIdMarker field, which per the AWS API echoes the VersionIdMarker of
the request.  The code reads NextKeyMarker and (at line 259) VersionIdMarker;
it never reads NextVersionIdMarker. -/
structure ListVersionsOutput where
  versions : List ObjectVersion
  nextKeyMarker : Option String
  versionIdMarker : Option String
  nextVersionIdMarker : Option String
deriving Repr, DecidableEq

/-- s3.DeleteBucketInput: Bucket. -/
structure DeleteBucketInput where
  bucket : String
deriving Repr, DecidableEq

/-- An error returned by the AWS client: either an awserr.Error carrying a
code and a message (and, when it is also an awserr.RequestFailure, an HTTP
status code), or a plain non-awserr error. -/
inductive AWSError where
  | awsErr (code : String) (message : String) (statusCode : Option Nat)
  | plainError (msg : String)
deriving Repr, DecidableEq

/-- The Go-side error domain of the bucket component.  bucketDoesNotExist is
the package-level ErrBucketDoesNotExist; newError m models
errors.New(awsErr.Code() + ": " + awsErr.Message()); otherError models a
non-awserr client error returned unchanged; templateError models an error
from text/template Parse or Execute returned unchanged; panicNilDeref marks
the outcome of dereferencing a nil LocationConstraint pointer (a Go runtime
panic, which is never a normal return). -/
inductive GoError where
  | bucketDoesNotExist
  | newError (msg : String)
  | otherError (msg : String)
  | templateError (msg : String)
  | panicNilDeref
deriving Repr, DecidableEq

/-- The package-level error value ErrBucketDoesNotExist from bucket.go. -/
def ErrBucketDoesNotExist : GoError := GoError.bucketDoesNotExist

/-- aws.StringValue: nil gives the empty string, otherwise the pointed-to
string. -/
def stringValue : Option String → String
  | none => ""
  | some s => s

/-- The error translation appearing at every client call site except the
DeleteBucket call: an awserr.Error becomes
errors.New(awsErr.Code() + ": " + awsErr.Message()); any other error is
returned as it is. -/
def wrapProviderError : AWSError → GoError
  | AWSError.awsErr code message _ => GoError.newError (code ++ ": " ++ message)
  | AWSError.plainError m => GoError.otherError m

/-- The error translation of the DeleteBucket call site (Delete, lines
112-123): an awserr.RequestFailure with HTTP status 400 or 404 becomes
ErrBucketDoesNotExist; any other awserr.Error becomes the concatenated
newError; any other error is returned as it is. -/
def mapDeleteBucketError : AWSError → GoError
  | AWSError.awsErr code message (some statusCode) =>
      if statusCode == 400 || statusCode == 404 then GoError.bucketDoesNotExist
      else GoError.newError (code ++ ": " ++ message)
  | AWSError.awsErr code message none => GoError.newError (code ++ ": " ++ message)
  | AWSError.plainError m => GoError.otherError m

/-- The remote S3 client capability set used by the component, one response
function per API call.  Responses are a function of the request. -/
structure S3Svc where
  getBucketLocation : GetBucketLocationInput → Except AWSError GetBucketLocationOutput
  createBucket : CreateBucketInput → Except AWSError CreateBucketOutput
  putBucketPolicy : PutBucketPolicyInput → Except AWSError Unit
  listObjects : ListObjectsInput → Except AWSError ListObjectsOutput
  deleteObjects : DeleteObjectsInput → Except AWSError Unit
  listObjectVersions : ListVersionsInput → Except AWSError ListVersionsOutput
  deleteBucket : DeleteBucketInput → Except AWSError Unit

/-- A remote call issued by the component, carrying exactly the request the
code built. -/
inductive Call where
  | getBucketLocation (input : GetBucketLocationInput)
  | createBucket (input : CreateBucketInput)
  | putBucketPolicy (input : PutBucketPolicyInput)
  | listObjects (input : ListObjectsInput)
  | deleteObjects (input : DeleteObjectsInput)
  | listObjectVersions (input : ListVersionsInput)
  | deleteBucket (input : DeleteBucketInput)
deriving Repr, DecidableEq

/-- buildBucketDetails (lines 130-136): BucketName, Region and a derived ARN
(fmt.Sprintf "arn:%s:s3:::%s" partition bucketName); the attributes argument
is ignored, and the remaining struct fields keep their Go zero values (nil
Tags map, empty Policy). -/
def buildBucketDetails (bucketName region partition : String)
    (attributes : Option (List (String × String))) : BucketDetails :=
  { BucketName := bucketName
    Region := region
    ARN := "arn:" ++ partition ++ ":s3:::" ++ bucketName
    Tags := []
    Policy := "" }

/-- buildCreateBucketInput (lines 138-143): only the Bucket field is set; the
bucketDetails argument is ignored. -/
def buildCreateBucketInput (bucketName : String) (bucketDetails : BucketDetails) :
    CreateBucketInput :=
  { bucket := bucketName }

/-- Describe (lines 30-47): one GetBucketLocation call; on an error the
awserr translation; on success buildBucketDetails applied to the
dereferenced LocationConstraint pointer (a nil pointer would make the Go
code panic) with nil attributes. -/
def Describe (s : S3Svc) (bucketName partition : String) : Except GoError BucketDetails :=
  let getLocationInput : GetBucketLocationInput := { bucket := bucketName }
  match s.getBucketLocation getLocationInput with
  | Except.error e => Except.error (wrapProviderError e)
  | Except.ok getLocationOutput =>
    match getLocationOutput.locationConstraint with
    | none => Except.error GoError.panicNilDeref
    | some constraint =>
      Except.ok (buildBucketDetails bucketName constraint partition none)

/-- The policy-template engine (Go text/template): Parse turns the template
text into a renderer, Execute applies the renderer to a BucketDetails value;
either step can fail. -/
structure TemplateEngine where
  parse : String → Except String (BucketDetails → Except String String)

/-- Create (lines 49-93): one CreateBucket call built by
buildCreateBucketInput; on success, if the Policy field is non-empty, the
local bucketDetails copy gets BucketName set to the bucketName argument, the
policy template is parsed and executed against that copy, and one
PutBucketPolicy call is issued with Bucket set to bucketDetails.BucketName
and the rendered policy.  Any failure returns an error immediately; on
success the call returns aws.StringValue of the creation Location.  The
second component of the result is the list of remote calls issued. -/
def Create (s : S3Svc) (engine : TemplateEngine) (bucketName : String)
    (bucketDetails : BucketDetails) : Except GoError String × List Call :=
  let createBucketInput := buildCreateBucketInput bucketName bucketDetails
  match s.createBucket createBucketInput with
  | Except.error e => (Except.error (wrapProviderError e), [Call.createBucket createBucketInput])
  | Except.ok createBucketOutput =>
    if bucketDetails.Policy.length > 0 then
      let bucketDetails := { bucketDetails with BucketName := bucketName }
      match engine.parse bucketDetails.Policy with
      | Except.error e =>
          (Except.error (GoError.templateError e), [Call.createBucket createBucketInput])
      | Except.ok tmpl =>
        match tmpl bucketDetails with
        | Except.error e =>
            (Except.error (GoError.templateError e), [Call.createBucket createBucketInput])
        | Except.ok policy =>
          let putPolicyInput : PutBucketPolicyInput :=
            { bucket := bucketDetails.BucketName, policy := policy }
          match s.putBucketPolicy putPolicyInput with
          | Except.error e =>
              (Except.error (wrapProviderError e),
               [Call.createBucket createBucketInput, Call.putBucketPolicy putPolicyInput])
          | Except.ok _ =>
              (Except.ok (stringValue createBucketOutput.location),
               [Call.createBucket createBucketInput, Call.putBucketPolicy putPolicyInput])
    else
      (Except.ok (stringValue createBucketOutput.location),
       [Call.createBucket createBucketInput])

/-- The loop of clearObjects (lines 160-204).  Each iteration lists with
MaxKeys 1000 and the current marker, wraps a listing error, batch-deletes
the page when it is non-empty (wrapping a deletion error), and exits when
aws.StringValue of the output's Marker field is empty.  The Go code never
assigns the marker variable inside the loop, so the recursive call passes
marker through unchanged, exactly as the source does.  Fuel bounds the
number of iterations; none means the fuel was exhausted with the loop still
running. -/
def clearObjectsLoop (s : S3Svc) (bucketName : String) (marker : Option String) :
    Nat → Option (Except GoError Unit) × List Call
  | 0 => (none, [])
  | fuel + 1 =>
    let listObjectsInput : ListObjectsInput :=
      { bucket := bucketName, maxKeys := 1000, marker := marker }
    match s.listObjects listObjectsInput with
    | Except.error e =>
        (some (Except.error (wrapProviderError e)), [Call.listObjects listObjectsInput])
    | Except.ok listObjectsOutput =>
      let objects : List ObjectIdentifier :=
        listObjectsOutput.contents.map (fun key => { key := key, versionId := none })
      if objects.length > 0 then
        let deleteObjectsInput : DeleteObjectsInput := { bucket := bucketName, objects := objects }
        match s.deleteObjects deleteObjectsInput with
        | Except.error e =>
            (some (Except.error (wrapProviderError e)),
             [Call.listObjects listObjectsInput, Call.deleteObjects deleteObjectsInput])
        | Except.ok _ =>
          if stringValue listObjectsOutput.marker == "" then
            (some (Except.ok ()),
             [Call.listObjects listObjectsInput, Call.deleteObjects deleteObjectsInput])
          else
            let rest := clearObjectsLoop s bucketName marker fuel
            (rest.fst,
             Call.listObjects listObjectsInput :: Call.deleteObjects deleteObjectsInput :: rest.snd)
      else
        if stringValue listObjectsOutput.marker == "" then
          (some (Except.ok ()), [Call.listObjects listObjectsInput])
        else
          let rest := clearObjectsLoop s bucketName marker fuel
          (rest.fst, Call.listObjects listObjectsInput :: rest.snd)

/-- clearObjects (lines 154-207): the loop started with a nil marker. -/
def clearObjects (s : S3Svc) (bucketName : String) (fuel : Nat) :
    Option (Except GoError Unit) × List Call :=
  clearObjectsLoop s bucketName none fuel

/-- The loop of clearVersions (lines 216-263).  Each iteration lists versions
with the current KeyMarker and VersionIdMarker, wraps a listing error,
batch-deletes the page of (Key, VersionId) identifiers when it is non-empty,
then sets keyMarker from the output's NextKeyMarker and versionIdMarker from
the output's VersionIdMarker field (line 259 reads VersionIdMarker, not
NextVersionIdMarker), and exits when aws.StringValue of both updated markers
is empty. -/
def clearVersionsLoop (s : S3Svc) (bucketName : String)
    (keyMarker versionIdMarker : Option String) :
    Nat → Option (Except GoError Unit) × List Call
  | 0 => (none, [])
  | fuel + 1 =>
    let listVersionsInput : ListVersionsInput :=
      { bucket := bucketName, keyMarker := keyMarker, versionIdMarker := versionIdMarker }
    match s.listObjectVersions listVersionsInput with
    | Except.error e =>
        (some (Except.error (wrapProviderError e)), [Call.listObjectVersions listVersionsInput])
    | Except.ok listVersionsOutput =>
      let objects : List ObjectIdentifier :=
        listVersionsOutput.versions.map
          (fun version => { key := version.key, versionId := some version.versionId })
      let keyMarker2 := listVersionsOutput.nextKeyMarker
      let versionIdMarker2 := listVersionsOutput.versionIdMarker
      if objects.length > 0 then
        let deleteObjectsInput : DeleteObjectsInput := { bucket := bucketName, objects := objects }
        match s.deleteObjects deleteObjectsInput with
        | Except.error e =>
            (some (Except.error (wrapProviderError e)),
             [Call.listObjectVersions listVersionsInput, Call.deleteObjects deleteObjectsInput])
        | Except.ok _ =>
          if stringValue keyMarker2 == "" && stringValue versionIdMarker2 == "" then
            (some (Except.ok ()),
             [Call.listObjectVersions listVersionsInput, Call.deleteObjects deleteObjectsInput])
          else
            let rest := clearVersionsLoop s bucketName keyMarker2 versionIdMarker2 fuel
            (rest.fst,
             Call.listObjectVersions listVersionsInput ::
               Call.deleteObjects deleteObjectsInput :: rest.snd)
      else
        if stringValue keyMarker2 == "" && stringValue versionIdMarker2 == "" then
          (some (Except.ok ()), [Call.listObjectVersions listVersionsInput])
        else
          let rest := clearVersionsLoop s bucketName keyMarker2 versionIdMarker2 fuel
          (rest.fst, Call.listObjectVersions listVersionsInput :: rest.snd)

/-- clearVersions (lines 209-266): the loop started with nil KeyMarker and
nil VersionIdMarker. -/
def clearVersions (s : S3Svc) (bucketName : String) (fuel : Nat) :
    Option (Except GoError Unit) × List Call :=
  clearVersionsLoop s bucketName none none fuel

/-- clear (lines 145-152): clearObjects, then, only if it succeeded,
clearVersions. -/
def clear (s : S3Svc) (bucketName : String) (fuel : Nat) :
    Option (Except GoError Unit) × List Call :=
  match clearObjects s bucketName fuel with
  | (some (Except.ok _), tr1) =>
    let rest := clearVersions s bucketName fuel
    (rest.fst, tr1 ++ rest.snd)
  | (some (Except.error e), tr1) => (some (Except.error e), tr1)
  | (none, tr1) => (none, tr1)

/-- Delete (lines 100-128): clear, then, only if it succeeded, one
DeleteBucket call whose error goes through mapDeleteBucketError. -/
def Delete (s : S3Svc) (bucketName : String) (fuel : Nat) :
    Option (Except GoError Unit) × List Call :=
  match clear s bucketName fuel with
  | (some (Except.ok _), tr) =>
    let deleteBucketInput : DeleteBucketInput := { bucket := bucketName }
    match s.deleteBucket deleteBucketInput with
    | Except.error e =>
        (some (Except.error (mapDeleteBucketError e)), tr ++ [Call.deleteBucket deleteBucketInput])
    | Except.ok _ => (some (Except.ok ()), tr ++ [Call.deleteBucket deleteBucketInput])
  | (some (Except.error e), tr) => (some (Except.error e), tr)
  | (none, tr) => (none, tr)

/-! Concrete remote clients used to instantiate the theorems below. -/

/-- A client for a bucket whose location constraint is present but empty (the
provider reports the default location); every other call succeeds trivially. -/
def emptyConstraintSvc : S3Svc :=
  { getBucketLocation := fun _ => Except.ok { locationConstraint := some "" }
    createBucket := fun _ => Except.ok { location := some "/probe" }
    putBucketPolicy := fun _ => Except.ok ()
    listObjects := fun _ => Except.ok { contents := [], marker := none }
    deleteObjects := fun _ => Except.ok ()
    listObjectVersions := fun _ =>
      Except.ok { versions := [], nextKeyMarker := none, versionIdMarker := none,
                  nextVersionIdMarker := none }
    deleteBucket := fun _ => Except.ok () }

/-- A client for a bucket located in us-west-2; every call succeeds. -/
def usWest2Svc : S3Svc :=
  { getBucketLocation := fun _ => Except.ok { locationConstraint := some "us-west-2" }
    createBucket := fun _ => Except.ok { location := some "/my-bucket" }
    putBucketPolicy := fun _ => Except.ok ()
    listObjects := fun _ => Except.ok { contents := [], marker := none }
    deleteObjects := fun _ => Except.ok ()
    listObjectVersions := fun _ =>
      Except.ok { versions := [], nextKeyMarker := none, versionIdMarker := none,
                  nextVersionIdMarker := none }
    deleteBucket := fun _ => Except.ok () }

/-- A client for a bucket name that does not exist at the provider: every
call fails the way S3 fails on a missing bucket, with a NoSuchBucket
request failure carrying HTTP status 404. -/
def missingBucketSvc : S3Svc :=
  { getBucketLocation := fun _ =>
      Except.error (AWSError.awsErr "NoSuchBucket" "The specified bucket does not exist" (some 404))
    createBucket := fun _ =>
      Except.error (AWSError.awsErr "NoSuchBucket" "The specified bucket does not exist" (some 404))
    putBucketPolicy := fun _ =>
      Except.error (AWSError.awsErr "NoSuchBucket" "The specified bucket does not exist" (some 404))
    listObjects := fun _ =>
      Except.error (AWSError.awsErr "NoSuchBucket" "The specified bucket does not exist" (some 404))
    deleteObjects := fun _ =>
      Except.error (AWSError.awsErr "NoSuchBucket" "The specified bucket does not exist" (some 404))
    listObjectVersions := fun _ =>
      Except.error (AWSError.awsErr "NoSuchBucket" "The specified bucket does not exist" (some 404))
    deleteBucket := fun _ =>
      Except.error (AWSError.awsErr "NoSuchBucket" "The specified bucket does not exist" (some 404)) }

/-- A client for an empty bucket that vanishes between the purge phases and
the delete call: both listings come back empty, but DeleteBucket fails with
a 404-status request failure. -/
def goneAfterClearSvc : S3Svc :=
  { getBucketLocation := fun _ => Except.ok { locationConstraint := some "" }
    createBucket := fun _ => Except.ok { location := some "/gone" }
    putBucketPolicy := fun _ => Except.ok ()
    listObjects := fun _ => Except.ok { contents := [], marker := none }
    deleteObjects := fun _ => Except.ok ()
    listObjectVersions := fun _ =>
      Except.ok { versions := [], nextKeyMarker := none, versionIdMarker := none,
                  nextVersionIdMarker := none }
    deleteBucket := fun _ =>
      Except.error (AWSError.awsErr "NoSuchBucket" "The specified bucket does not exist" (some 404)) }

/-! Theorems for the claims about Describe (C4, C9, C10). -/

/-- C9: for every client, bucket name and partition, a successful Describe
returns a BucketDetails whose ARN is exactly
"arn:" ++ partition ++ ":s3:::" ++ bucketName, with no other characters
inserted. -/
theorem C9_describe_arn (s : S3Svc) (bucketName partition : String) (d : BucketDetails)
    (h : Describe s bucketName partition = Except.ok d) :
    d.ARN = "arn:" ++ partition ++ ":s3:::" ++ bucketName := by
  cases hloc : s.getBucketLocation { bucket := bucketName } with
  | error e => simp [Describe, hloc] at h
  | ok out =>
    cases hc : out.locationConstraint with
    | none => simp [Describe, hloc, hc] at h
    | some c =>
      simp [Describe, hloc, hc] at h
      subst h
      rfl

/-- C9 witness: Describe of "my-bucket" under partition "aws" against a
concrete client yields the ARN "arn:aws:s3:::my-bucket". -/
theorem C9_describe_arn_witness :
    Describe usWest2Svc "my-bucket" "aws" =
      Except.ok (buildBucketDetails "my-bucket" "us-west-2" "aws" none) ∧
    (buildBucketDetails "my-bucket" "us-west-2" "aws" none).ARN = "arn:aws:s3:::my-bucket" :=
  ⟨rfl, C9_describe_arn usWest2Svc "my-bucket" "aws"
    (buildBucketDetails "my-bucket" "us-west-2" "aws" none) rfl⟩

/-- C10: every successful Describe returns a BucketDetails whose Tags map is
empty (the Go zero value, a nil map), and buildBucketDetails ignores its
attributes argument entirely, whatever tags the bucket carries remotely. -/
theorem C10_describe_tags_always_empty (s : S3Svc) (bucketName partition : String)
    (d : BucketDetails) (h : Describe s bucketName partition = Except.ok d) :
    d.Tags = [] ∧
    ∀ n r p a, buildBucketDetails n r p a = buildBucketDetails n r p none := by
  constructor
  · cases hloc : s.getBucketLocation { bucket := bucketName } with
    | error e => simp [Describe, hloc] at h
    | ok out =>
      cases hc : out.locationConstraint with
      | none => simp [Describe, hloc, hc] at h
      | some c =>
        simp [Describe, hloc, hc] at h
        subst h
        rfl
  · intro n r p a
    rfl

/-- C10 witness: against a client whose bucket is tagged remotely (tags are
simply never fetched), Describe returns empty Tags. -/
theorem C10_describe_tags_always_empty_witness :
    Describe usWest2Svc "tagged-bucket" "aws" =
      Except.ok (buildBucketDetails "tagged-bucket" "us-west-2" "aws" none) ∧
    (buildBucketDetails "tagged-bucket" "us-west-2" "aws" none).Tags = [] :=
  ⟨rfl, (C10_describe_tags_always_empty usWest2Svc "tagged-bucket" "aws"
    (buildBucketDetails "tagged-bucket" "us-west-2" "aws" none) rfl).1⟩

/-- C4 counterexample: when the provider returns an empty location
constraint, Describe returns it verbatim as the Region — the empty
constraint is NOT normalized to the default region value (us-east-1); the
claim's normalization does not happen. -/
theorem C4_counterexample :
    Describe emptyConstraintSvc "logs-bucket" "aws" =
      Except.ok (buildBucketDetails "logs-bucket" "" "aws" none) ∧
    (buildBucketDetails "logs-bucket" "" "aws" none).Region = "" ∧
    (buildBucketDetails "logs-bucket" "" "aws" none).Region ≠ "us-east-1" := by
  refine ⟨rfl, rfl, ?_⟩
  decide

/-- C4 amended: a successful Describe copies the provider's location
constraint into Region verbatim, with no normalization of the empty
constraint (and a nil constraint pointer is dereferenced, which in Go
panics, rather than normalized). -/
theorem C4_describe_region_verbatim (s : S3Svc) (bucketName partition constraint : String)
    (out : GetBucketLocationOutput)
    (h1 : s.getBucketLocation { bucket := bucketName } = Except.ok out)
    (h2 : out.locationConstraint = some constraint) :
    Describe s bucketName partition =
      Except.ok (buildBucketDetails bucketName constraint partition none) ∧
    (buildBucketDetails bucketName constraint partition none).Region = constraint := by
  constructor
  · simp [Describe, h1, h2]
  · rfl

/-- C4 amended witness: the empty constraint comes back as the empty Region. -/
theorem C4_describe_region_verbatim_witness :
    Describe emptyConstraintSvc "raw-region-bucket" "aws" =
      Except.ok (buildBucketDetails "raw-region-bucket" "" "aws" none) ∧
    (buildBucketDetails "raw-region-bucket" "" "aws" none).Region = "" :=
  C4_describe_region_verbatim emptyConstraintSvc "raw-region-bucket" "aws" ""
    { locationConstraint := some "" } rfl rfl

/-! Theorems for the claims about Delete's error mapping and abort behavior
(C3, C5). -/

/-- C3 counterexample: for a bucket name that does not exist at the provider
(every remote call fails with the NoSuchBucket 404 request failure, as S3
does), Delete returns the generic wrapped provider error produced by the
object-listing call of the purge phase — not ErrBucketDoesNotExist. -/
theorem C3_counterexample :
    (Delete missingBucketSvc "ghost-bucket" 5).fst =
      some (Except.error (GoError.newError "NoSuchBucket: The specified bucket does not exist")) ∧
    (Delete missingBucketSvc "ghost-bucket" 5).fst ≠
      some (Except.error ErrBucketDoesNotExist) := by
  refine ⟨rfl, ?_⟩
  decide

/-- C3 amended: ErrBucketDoesNotExist is produced exactly when the purge
phases succeed and the DeleteBucket call itself fails as a request failure
with HTTP status 400 or 404; it is a distinct error kind from the generic
wrapped provider error.  (When the provider reports the missing bucket
already during a purge-phase call, Delete instead returns the generic
wrapped error, as the counterexample shows.) -/
theorem C3_delete_not_found_mapping (s : S3Svc) (bucketName : String) (fuel : Nat)
    (tr : List Call) (code msg : String) (status : Nat)
    (hclear : clear s bucketName fuel = (some (Except.ok ()), tr))
    (hdb : s.deleteBucket { bucket := bucketName } =
      Except.error (AWSError.awsErr code msg (some status)))
    (hst : status = 400 ∨ status = 404) :
    (Delete s bucketName fuel).fst = some (Except.error ErrBucketDoesNotExist) ∧
    ∀ m, ErrBucketDoesNotExist ≠ GoError.newError m := by
  constructor
  · rcases hst with h | h <;> subst h <;>
      simp [Delete, hclear, hdb, mapDeleteBucketError, ErrBucketDoesNotExist]
  · intro m h
    simp [ErrBucketDoesNotExist] at h

/-- C3 amended witness: an empty bucket that vanishes before the DeleteBucket
call: the 404 request failure of the delete call maps to
ErrBucketDoesNotExist. -/
theorem C3_delete_not_found_mapping_witness :
    (Delete goneAfterClearSvc "gone-bucket" 1).fst =
      some (Except.error ErrBucketDoesNotExist) ∧
    ∀ m, ErrBucketDoesNotExist ≠ GoError.newError m :=
  C3_delete_not_found_mapping goneAfterClearSvc "gone-bucket" 1
    [Call.listObjects { bucket := "gone-bucket", maxKeys := 1000, marker := none },
     Call.listObjectVersions { bucket := "gone-bucket", keyMarker := none, versionIdMarker := none }]
    "NoSuchBucket" "The specified bucket does not exist" 404 rfl rfl (Or.inr rfl)

/-- Every call issued by the clearObjects loop is a listing or a batch
delete; in particular it is never a DeleteBucket call. -/
theorem clearObjectsLoop_no_deleteBucket (s : S3Svc) (bucketName : String) (fuel : Nat) :
    ∀ (marker : Option String) (i : DeleteBucketInput),
      Call.deleteBucket i ∉ (clearObjectsLoop s bucketName marker fuel).snd := by
  induction fuel with
  | zero => intro marker i; simp [clearObjectsLoop]
  | succ n ih =>
    intro marker i
    simp only [clearObjectsLoop]
    split
    · simp
    · split
      · split
        · simp
        · split
          · simp
          · simp [ih]
      · split
        · simp
        · simp [ih]

/-- Every call issued by the clearVersions loop is a listing or a batch
delete; in particular it is never a DeleteBucket call. -/
theorem clearVersionsLoop_no_deleteBucket (s : S3Svc) (bucketName : String) (fuel : Nat) :
    ∀ (keyMarker versionIdMarker : Option String) (i : DeleteBucketInput),
      Call.deleteBucket i ∉ (clearVersionsLoop s bucketName keyMarker versionIdMarker fuel).snd := by
  induction fuel with
  | zero => intro keyMarker versionIdMarker i; simp [clearVersionsLoop]
  | succ n ih =>
    intro keyMarker versionIdMarker i
    simp only [clearVersionsLoop]
    split
    · simp
    · split
      · split
        · simp
        · split
          · simp
          · simp [ih]
      · split
        · simp
        · simp [ih]

/-- The two purge phases together never issue a DeleteBucket call. -/
theorem clear_no_deleteBucket (s : S3Svc) (bucketName : String) (fuel : Nat)
    (i : DeleteBucketInput) :
    Call.deleteBucket i ∉ (clear s bucketName fuel).snd := by
  have h1 : Call.deleteBucket i ∉ (clearObjectsLoop s bucketName none fuel).snd :=
    clearObjectsLoop_no_deleteBucket s bucketName fuel none i
  have h2 : Call.deleteBucket i ∉ (clearVersionsLoop s bucketName none none fuel).snd :=
    clearVersionsLoop_no_deleteBucket s bucketName fuel none none i
  unfold clear clearObjects clearVersions
  rcases hco : clearObjectsLoop s bucketName none fuel with ⟨r1, tr1⟩
  rw [hco] at h1
  rcases r1 with _ | r1
  · simpa using h1
  · rcases r1 with e | u
    · simpa using h1
    · simp only [List.mem_append]
      simp [List.mem_append, h1, h2]

/-- C5: if either purge phase of Delete fails, Delete returns that same
error with that same call trace, and no DeleteBucket call appears in the
trace — the bucket delete is never attempted. -/
theorem C5_delete_aborts_on_purge_failure (s : S3Svc) (bucketName : String) (fuel : Nat)
    (e : GoError) (tr : List Call)
    (h : clear s bucketName fuel = (some (Except.error e), tr)) :
    Delete s bucketName fuel = (some (Except.error e), tr) ∧
    ∀ i, Call.deleteBucket i ∉ tr := by
  constructor
  · unfold Delete
    rw [h]
  · intro i
    have hd := clear_no_deleteBucket s bucketName fuel i
    rw [h] at hd
    simpa using hd

/-- A client whose object listing is denied: the very first purge call
fails. -/
def deniedListSvc : S3Svc :=
  { getBucketLocation := fun _ => Except.ok { locationConstraint := some "" }
    createBucket := fun _ => Except.ok { location := some "/locked" }
    putBucketPolicy := fun _ => Except.ok ()
    listObjects := fun _ =>
      Except.error (AWSError.awsErr "AccessDenied" "Access Denied" (some 403))
    deleteObjects := fun _ => Except.ok ()
    listObjectVersions := fun _ =>
      Except.ok { versions := [], nextKeyMarker := none, versionIdMarker := none,
                  nextVersionIdMarker := none }
    deleteBucket := fun _ => Except.ok () }

/-- C5 witness: a denied listing aborts Delete with the wrapped listing
error after one call, and the trace holds no DeleteBucket call. -/
theorem C5_delete_aborts_on_purge_failure_witness :
    Delete deniedListSvc "locked-bucket" 1 =
      (some (Except.error (GoError.newError "AccessDenied: Access Denied")),
       [Call.listObjects { bucket := "locked-bucket", maxKeys := 1000, marker := none }]) ∧
    ∀ i, Call.deleteBucket i ∉
      [Call.listObjects { bucket := "locked-bucket", maxKeys := 1000, marker := none }] :=
  C5_delete_aborts_on_purge_failure deniedListSvc "locked-bucket" 1
    (GoError.newError "AccessDenied: Access Denied")
    [Call.listObjects { bucket := "locked-bucket", maxKeys := 1000, marker := none }] rfl

/-- C8: Delete on an empty bucket — the listing of objects returns no
contents and an empty echoed marker, the listing of versions returns no
versions and no markers — issues exactly one ListObjects call, then exactly
one ListObjectVersions call, then the DeleteBucket call, and no
batch-delete at all. -/
theorem C8_delete_empty_bucket_calls (s : S3Svc) (bucketName : String) (fuel : Nat)
    (lo : ListObjectsOutput) (lv : ListVersionsOutput)
    (hfuel : 0 < fuel)
    (h1 : s.listObjects { bucket := bucketName, maxKeys := 1000, marker := none } = Except.ok lo)
    (h2 : lo.contents = []) (h3 : lo.marker = none)
    (h4 : s.listObjectVersions
      { bucket := bucketName, keyMarker := none, versionIdMarker := none } = Except.ok lv)
    (h5 : lv.versions = []) (h6 : lv.nextKeyMarker = none) (h7 : lv.versionIdMarker = none)
    (h8 : lv.nextVersionIdMarker = none) :
    (Delete s bucketName fuel).snd =
      [Call.listObjects { bucket := bucketName, maxKeys := 1000, marker := none },
       Call.listObjectVersions { bucket := bucketName, keyMarker := none, versionIdMarker := none },
       Call.deleteBucket { bucket := bucketName }] := by
  obtain ⟨n, rfl⟩ : ∃ n, fuel = n + 1 := ⟨fuel - 1, by omega⟩
  have hco : clearObjectsLoop s bucketName none (n + 1) =
      (some (Except.ok ()),
       [Call.listObjects { bucket := bucketName, maxKeys := 1000, marker := none }]) := by
    simp [clearObjectsLoop, h1, h2, h3, stringValue]
  have hcv : clearVersionsLoop s bucketName none none (n + 1) =
      (some (Except.ok ()),
       [Call.listObjectVersions
         { bucket := bucketName, keyMarker := none, versionIdMarker := none }]) := by
    simp [clearVersionsLoop, h4, h5, h6, h7, stringValue]
  have hclear : clear s bucketName (n + 1) =
      (some (Except.ok ()),
       [Call.listObjects { bucket := bucketName, maxKeys := 1000, marker := none },
        Call.listObjectVersions
          { bucket := bucketName, keyMarker := none, versionIdMarker := none }]) := by
    unfold clear clearObjects clearVersions
    rw [hco, hcv]
    rfl
  unfold Delete
  rw [hclear]
  cases hdb : s.deleteBucket { bucket := bucketName } <;> simp [hdb]

/-- C8 witness: the concrete empty bucket at fuel 1. -/
theorem C8_delete_empty_bucket_calls_witness :
    (Delete emptyConstraintSvc "empty-bucket" 1).snd =
      [Call.listObjects { bucket := "empty-bucket", maxKeys := 1000, marker := none },
       Call.listObjectVersions { bucket := "empty-bucket", keyMarker := none, versionIdMarker := none },
       Call.deleteBucket { bucket := "empty-bucket" }] :=
  C8_delete_empty_bucket_calls emptyConstraintSvc "empty-bucket" 1
    { contents := [], marker := none }
    { versions := [], nextKeyMarker := none, versionIdMarker := none,
      nextVersionIdMarker := none }
    (by decide) rfl rfl rfl rfl rfl rfl rfl rfl

/-! Theorems for the claims about the purge-phase pagination (C1, C2). -/

/-- Keys of the first page of the 2000-object bucket. -/
def page1Keys : List String := (List.range 1000).map (fun i => "object-" ++ Nat.repr i)

/-- Keys of the second page of the 2000-object bucket. -/
def page2Keys : List String := (List.range 1000).map (fun i => "object-" ++ Nat.repr (1000 + i))

/-- A client for a bucket holding 2000 current objects which the provider
serves in two pages of the requested size 1000: a request without a marker
gets the first page, a request with a marker gets the page after that
marker.  As in the AWS ListObjects API, the Marker field of the response
echoes the Marker of the request. -/
def twoPageSvc : S3Svc :=
  { getBucketLocation := fun _ => Except.ok { locationConstraint := some "" }
    createBucket := fun _ => Except.ok { location := some "/data" }
    putBucketPolicy := fun _ => Except.ok ()
    listObjects := fun input =>
      match input.marker with
      | none => Except.ok { contents := page1Keys, marker := input.marker }
      | some _ => Except.ok { contents := page2Keys, marker := input.marker }
    deleteObjects := fun _ => Except.ok ()
    listObjectVersions := fun _ =>
      Except.ok { versions := [], nextKeyMarker := none, versionIdMarker := none,
                  nextVersionIdMarker := none }
    deleteBucket := fun _ => Except.ok () }

/-- Number of ListObjects calls in a trace. -/
def countListObjects (tr : List Call) : Nat :=
  (tr.filter fun c => match c with | Call.listObjects _ => true | _ => false).length

/-- Number of DeleteObjects (batch-delete) calls in a trace. -/
def countDeleteObjects (tr : List Call) : Nat :=
  (tr.filter fun c => match c with | Call.deleteObjects _ => true | _ => false).length

/-- Total number of object identifiers covered by the batch-delete calls of
a trace. -/
def deletedKeyCount (tr : List Call) : Nat :=
  (tr.map fun c => match c with | Call.deleteObjects i => i.objects.length | _ => 0).sum

set_option maxRecDepth 100000

/-- C1 (code bug): against the 2000-object two-page bucket, the object-purge
phase exits successfully after a single list call and a single batch-delete
covering only the 1000 first-page keys.  The Go loop never assigns its
marker variable and tests the echoed Marker response field (empty, since
the request carried no marker), so it terminates after the first page:
1 batch-delete is issued instead of the claimed ceil(2000/1000) = 2, and
only 1000 of the 2000 objects are covered. -/
theorem C1_object_purge_stops_after_first_page :
    (clearObjects twoPageSvc "data-bucket" 9).fst = some (Except.ok ()) ∧
    countListObjects (clearObjects twoPageSvc "data-bucket" 9).snd = 1 ∧
    countDeleteObjects (clearObjects twoPageSvc "data-bucket" 9).snd = 1 ∧
    deletedKeyCount (clearObjects twoPageSvc "data-bucket" 9).snd = 1000 ∧
    page1Keys.length + page2Keys.length = 2000 := by
  refine ⟨rfl, rfl, rfl, rfl, ?_⟩
  simp [page1Keys, page2Keys]

/-- A client for a versioned bucket "vbucket" holding three versions v1, v2,
v3 of the single key "doc", served one version per page.  Continuation
follows the AWS ListObjectVersions semantics: the Next markers of a
truncated response point at the last version returned, the VersionIdMarker
field of a response echoes the request, and a request carrying a KeyMarker
without a VersionIdMarker resumes after every version of the marker key. -/
def threeVersionSvc : S3Svc :=
  { getBucketLocation := fun _ => Except.ok { locationConstraint := some "" }
    createBucket := fun _ => Except.ok { location := some "/vdata" }
    putBucketPolicy := fun _ => Except.ok ()
    listObjects := fun input => Except.ok { contents := [], marker := input.marker }
    deleteObjects := fun _ => Except.ok ()
    listObjectVersions := fun input =>
      match input.keyMarker, input.versionIdMarker with
      | none, none =>
        Except.ok { versions := [{ key := "doc", versionId := "v1" }],
                    nextKeyMarker := some "doc", versionIdMarker := none,
                    nextVersionIdMarker := some "v1" }
      | some "doc", some "v1" =>
        Except.ok { versions := [{ key := "doc", versionId := "v2" }],
                    nextKeyMarker := some "doc", versionIdMarker := some "v1",
                    nextVersionIdMarker := some "v2" }
      | some "doc", some "v2" =>
        Except.ok { versions := [{ key := "doc", versionId := "v3" }],
                    nextKeyMarker := none, versionIdMarker := some "v2",
                    nextVersionIdMarker := none }
      | _, _ =>
        Except.ok { versions := [], nextKeyMarker := none, versionIdMarker := input.versionIdMarker,
                    nextVersionIdMarker := none }
    deleteBucket := fun _ => Except.ok () }

/-- C2 (code bug): on the three-version bucket, the version-purge phase
makes its second list call with a nil VersionIdMarker although the first
response's NextVersionIdMarker was "v1" — line 259 copies the echoed
VersionIdMarker field instead of NextVersionIdMarker — and then terminates
successfully having deleted only version v1 of three: the cursor pair is
not taken from the response's next-markers as claimed. -/
theorem C2_version_purge_ignores_next_version_marker :
    clearVersions threeVersionSvc "vbucket" 9 =
      (some (Except.ok ()),
       [Call.listObjectVersions
          { bucket := "vbucket", keyMarker := none, versionIdMarker := none },
        Call.deleteObjects
          { bucket := "vbucket", objects := [{ key := "doc", versionId := some "v1" }] },
        Call.listObjectVersions
          { bucket := "vbucket", keyMarker := some "doc", versionIdMarker := none }]) ∧
    threeVersionSvc.listObjectVersions
        { bucket := "vbucket", keyMarker := none, versionIdMarker := none } =
      Except.ok { versions := [{ key := "doc", versionId := "v1" }],
                  nextKeyMarker := some "doc", versionIdMarker := none,
                  nextVersionIdMarker := some "v1" } ∧
    (none : Option String) ≠ some "v1" := by
  refine ⟨rfl, rfl, ?_⟩
  decide

/-! Theorems for the claims about Create's policy handling (C6, C7). -/

/-- C7: when the creation call succeeds and the policy template is
non-empty, the template is parsed and rendered against the bucketDetails
copy whose BucketName has been set to the bucketName argument, and Create
issues — besides the creation call — exactly one PutBucketPolicy call whose
Bucket argument is exactly that bucketName and whose Policy is the rendered
text, whether or not the policy call succeeds.  With the engine's
placeholder semantics this makes a BucketName placeholder render as the
literal bucket name passed in (see the witness). -/
theorem C7_put_policy_uses_bucket_name (s : S3Svc) (engine : TemplateEngine)
    (bucketName : String) (details : BucketDetails) (out : CreateBucketOutput)
    (tmpl : BucketDetails → Except String String) (rendered : String)
    (hcb : s.createBucket { bucket := bucketName } = Except.ok out)
    (hp : 0 < details.Policy.length)
    (hparse : engine.parse details.Policy = Except.ok tmpl)
    (hexec : tmpl { details with BucketName := bucketName } = Except.ok rendered) :
    (Create s engine bucketName details).snd =
      [Call.createBucket { bucket := bucketName },
       Call.putBucketPolicy { bucket := bucketName, policy := rendered }] := by
  cases hpp : s.putBucketPolicy { bucket := bucketName, policy := rendered } with
  | error e =>
    simp [Create, buildCreateBucketInput, hcb, hp, hparse, hexec, hpp]
  | ok u =>
    simp [Create, buildCreateBucketInput, hcb, hp, hparse, hexec, hpp]

/-- One part of a parsed policy template of the text/template engine: a
literal piece, or the action referencing the BucketName field. -/
inductive TemplatePart where
  | lit (s : String)
  | bucketNameField
deriving Repr, DecidableEq

/-- Rendering a list of parsed template parts against a data value: literal
pieces are copied, the BucketName action substitutes the BucketName of the
data value. -/
def renderParts (parts : List TemplatePart) (d : BucketDetails) : String :=
  String.join (parts.map fun p =>
    match p with
    | TemplatePart.lit s => s
    | TemplatePart.bucketNameField => d.BucketName)

/-- The policy template text used by the C7 witness: a resource ARN whose
bucket segment is the BucketName placeholder of the text/template syntax. -/
def c7PolicyText : String := "arn:aws:s3:::\x7b\x7b.BucketName\x7d\x7d/*"

/-- The text/template engine as it behaves on the witness's template: the
witness text parses into its literal prefix, the BucketName action, and the
literal suffix; any other text parses as one literal piece. -/
def c7TemplateEngine : TemplateEngine :=
  { parse := fun text =>
      if text = c7PolicyText then
        Except.ok (fun d => Except.ok (renderParts
          [TemplatePart.lit "arn:aws:s3:::", TemplatePart.bucketNameField,
           TemplatePart.lit "/*"] d))
      else
        Except.ok (fun d => Except.ok (renderParts [TemplatePart.lit text] d)) }

/-- C7 witness: creating "my-app-bucket" with the placeholder template makes
the PutBucketPolicy call carry the bucket argument "my-app-bucket" and the
policy with the placeholder rendered as the literal "my-app-bucket". -/
theorem C7_put_policy_uses_bucket_name_witness :
    (Create usWest2Svc c7TemplateEngine "my-app-bucket"
        { BucketName := "", ARN := "", Region := "", Tags := [], Policy := c7PolicyText }).snd =
      [Call.createBucket { bucket := "my-app-bucket" },
       Call.putBucketPolicy
         { bucket := "my-app-bucket", policy := "arn:aws:s3:::my-app-bucket/*" }] := by
  have h := C7_put_policy_uses_bucket_name usWest2Svc c7TemplateEngine "my-app-bucket"
    { BucketName := "", ARN := "", Region := "", Tags := [], Policy := c7PolicyText }
    { location := some "/my-bucket" }
    (fun d => Except.ok (renderParts
      [TemplatePart.lit "arn:aws:s3:::", TemplatePart.bucketNameField,
       TemplatePart.lit "/*"] d))
    "arn:aws:s3:::my-app-bucket/*"
    rfl (by decide) (by simp [c7TemplateEngine]) rfl
  exact h

/-- C6: when the creation call succeeds, the policy is non-empty, and the
template-parse, template-render, or put-bucket-policy step fails, the whole
Create returns an error (no success location); the creation call was issued
— the bucket exists remotely with the policy unapplied — and no
DeleteBucket (rollback) call is ever issued. -/
theorem C6_create_policy_failure_no_rollback (s : S3Svc) (engine : TemplateEngine)
    (bucketName : String) (details : BucketDetails) (out : CreateBucketOutput)
    (hcb : s.createBucket { bucket := bucketName } = Except.ok out)
    (hp : 0 < details.Policy.length)
    (hfail :
      (∃ pe, engine.parse details.Policy = Except.error pe) ∨
      (∃ tmpl ee, engine.parse details.Policy = Except.ok tmpl ∧
        tmpl { details with BucketName := bucketName } = Except.error ee) ∨
      (∃ tmpl rendered we, engine.parse details.Policy = Except.ok tmpl ∧
        tmpl { details with BucketName := bucketName } = Except.ok rendered ∧
        s.putBucketPolicy { bucket := bucketName, policy := rendered } = Except.error we)) :
    (∃ e, (Create s engine bucketName details).fst = Except.error e) ∧
    Call.createBucket { bucket := bucketName } ∈ (Create s engine bucketName details).snd ∧
    ∀ i, Call.deleteBucket i ∉ (Create s engine bucketName details).snd := by
  rcases hfail with ⟨pe, hparse⟩ | ⟨tmpl, ee, hparse, hexec⟩ | ⟨tmpl, rendered, we, hparse, hexec, hpp⟩
  · refine ⟨⟨GoError.templateError pe, ?_⟩, ?_, ?_⟩ <;>
      simp [Create, buildCreateBucketInput, hcb, hp, hparse]
  · refine ⟨⟨GoError.templateError ee, ?_⟩, ?_, ?_⟩ <;>
      simp [Create, buildCreateBucketInput, hcb, hp, hparse, hexec]
  · refine ⟨⟨wrapProviderError we, ?_⟩, ?_, ?_⟩ <;>
      simp [Create, buildCreateBucketInput, hcb, hp, hparse, hexec, hpp]

/-- A template engine on which parsing always fails, the way text/template
rejects malformed action syntax. -/
def failingParseEngine : TemplateEngine :=
  { parse := fun _ => Except.error "template: policy:1: unexpected EOF" }

/-- C6 witness: a malformed policy template fails Create after the bucket
was already created, with no rollback call. -/
theorem C6_create_policy_failure_no_rollback_witness :
    (∃ e, (Create usWest2Svc failingParseEngine "half-made-bucket"
      { BucketName := "", ARN := "", Region := "", Tags := [], Policy := "\x7b\x7b" }).fst =
        Except.error e) ∧
    Call.createBucket { bucket := "half-made-bucket" } ∈
      (Create usWest2Svc failingParseEngine "half-made-bucket"
        { BucketName := "", ARN := "", Region := "", Tags := [], Policy := "\x7b\x7b" }).snd ∧
    ∀ i, Call.deleteBucket i ∉
      (Create usWest2Svc failingParseEngine "half-made-bucket"
        { BucketName := "", ARN := "", Region := "", Tags := [], Policy := "\x7b\x7b" }).snd :=
  C6_create_policy_failure_no_rollback usWest2Svc failingParseEngine "half-made-bucket"
    { BucketName := "", ARN := "", Region := "", Tags := [], Policy := "\x7b\x7b" }
    { location := some "/my-bucket" } rfl (by decide)
    (Or.inl ⟨"template: policy:1: unexpected EOF", rfl⟩)

end AwsS3
